import Mathlib

/-!
Shallow embedding of the bulk-sync and audit-log pipeline of the `sync`
repository (Express + Mongoose product catalog with audit logging).

Embedded code:
- `src/backend/models/Product.js` — product schema (required fields, min
  bounds, unique SKU) used by Mongoose `save()` validation.
- `src/backend/models/SyncLog.js` — audit log entry schema and `createLog`.
- `src/backend/routes/products.js` — `POST /sync` bulk sync handler.
- `src/unnamed/part_001` (log routes) — `GET /` listing with pagination,
  `GET /export/csv`, `DELETE /cleanup`.

Modelling conventions:
- Timestamps are `Int` milliseconds.  `Date.now()` / `new Date()` are
  modelled by an explicit clock threaded through the state; every audit
  append advances the clock by one, so "elapsed wall time" is the clock
  difference the handler measures.
- The document stores are Lean lists (insertion order preserved).
- Mongoose `save()` failures are the deterministic ones visible in the
  schema: missing required path, value below `min`, duplicate unique SKU.
  A lookup `findOne({sku})` where the payload has no `sku` sends `null`
  to the store and matches no product, since every stored product has a
  non-null SKU (`required: true`).
- JSON payload fields that may be absent are `Option`s; `Mixed` details
  payloads are a closed inductive covering the shapes this code attaches.
  Schema fields never read by the embedded routes (`status`, `metadata`)
  are omitted.
-/

/-- `operation` enum of the SyncLog schema. -/
inductive Operation where
  | create | update | delete | sync | error | info | warning
deriving DecidableEq, Repr

/-- `entityType` enum of the SyncLog schema. -/
inductive EntityType where
  | product | user | system | auth
deriving DecidableEq, Repr

/-- `level` enum of the SyncLog schema. -/
inductive Level where
  | info | warning | error | success
deriving DecidableEq, Repr

/-- `source` enum of the SyncLog schema. -/
inductive Source where
  | api | web | system | sync
deriving DecidableEq, Repr

/-- `status` enum of the Product schema. -/
inductive ProductStatus where
  | active | inactive | discontinued
deriving DecidableEq, Repr

/-- `syncStatus` enum of the Product schema. -/
inductive SyncStatus where
  | pending | synced | error
deriving DecidableEq, Repr

/-- Authenticated actor supplied by the auth middleware (`req.user`). -/
inductive Role where
  | admin | user
deriving DecidableEq, Repr

structure Actor where
  id : Nat
  username : String
  role : Role
deriving DecidableEq, Repr

/-- An incoming sync payload item (`productData`).  Fields the Sync Engine
reads and copies; each may be absent from the JSON object. -/
structure Item where
  sku : Option String := none
  name : Option String := none
  description : Option String := none
  price : Option Int := none
  category : Option String := none
  stock : Option Int := none
deriving DecidableEq, Repr

/-- A stored product document (the fields of `productSchema` that the
embedded routes read or write). -/
structure Product where
  id : Nat
  sku : String
  name : String
  description : Option String
  price : Int
  category : String
  stock : Int
  status : ProductStatus
  lastSyncedAt : Int
  syncSource : Source
  syncStatus : SyncStatus
deriving DecidableEq, Repr

/-- The `results` object of the bulk sync handler. -/
structure SyncResults where
  created : Nat
  updated : Nat
  errors : Nat
  total : Nat
deriving DecidableEq, Repr

/-- Closed model of the `Mixed` `details` payloads the embedded routes
attach to audit entries. -/
inductive Details where
  | syncResults (r : SyncResults)
  | errorInfo (error : String) (productData : Item)
  | cleanupInfo (deletedCount : Nat) (daysToKeep : Int)
deriving DecidableEq, Repr

/-- A stored audit log entry (`syncLogSchema`). -/
structure LogEntry where
  operation : Operation
  entityType : EntityType
  entityId : Option Nat := none
  message : String
  details : Option Details := none
  userId : Option Nat := none
  username : Option String := none
  level : Level := Level.info
  source : Source := Source.web
  ipAddress : Option String := none
  userAgent : Option String := none
  duration : Option Int := none
  createdAt : Int
deriving DecidableEq, Repr

/-! ## Sync Engine (`POST /sync` in src/backend/routes/products.js) -/

/-- `Product.findOne({ sku: productData.sku })`: a payload with no `sku`
sends `null` to the store, which matches no product because every stored
product has a non-null SKU. -/
def lookupSku (ps : List Product) : Option String → Option Product
  | none => none
  | some s => ps.find? (fun p => p.sku == s)

/-- Mongoose validation outcome for `new Product({...productData}).save()`:
required paths `sku`, `name`, `price`, `category`; `min: 0` on price and
stock (stock defaults to 0 when absent). -/
def newErr (item : Item) : Option String :=
  if item.sku.isNone then some "sku is required"
  else if item.name.isNone then some "name is required"
  else if item.price.isNone then some "price is required"
  else if item.category.isNone then some "category is required"
  else if item.price.getD 0 < 0 then some "price is below minimum"
  else if item.stock.getD 0 < 0 then some "stock is below minimum"
  else none

/-- Mongoose validation outcome for `existingProduct.save()` after
`Object.assign(existingProduct, productData)`: the required paths are
already populated on the existing document, so only the `min: 0` bounds
on assigned values can fail. -/
def updateErr (item : Item) : Option String :=
  if item.price.getD 0 < 0 then some "price is below minimum"
  else if item.stock.getD 0 < 0 then some "stock is below minimum"
  else none

/-- Whether processing `item` against store `ps` throws (lookup decides the
branch; save validation decides the failure), mirroring the per-item `try`. -/
def itemError (ps : List Product) (item : Item) : Option String :=
  match lookupSku ps item.sku with
  | some _ => updateErr item
  | none => newErr item

/-- Mutable state of one `POST /sync` invocation. -/
structure SyncState where
  products : List Product
  logs : List LogEntry
  clock : Int
  nextId : Nat
  res : SyncResults
deriving Repr

/-- `${productData.sku}` interpolated into an error message: an absent
field prints as `undefined`. -/
def skuText (item : Item) : String := item.sku.getD "undefined"

/-- `${productData.name}` interpolated into a message: an absent field
prints as `undefined`. -/
def nameText (item : Item) : String := item.name.getD "undefined"

/-- The error-level audit entry of the per-item `catch` block. -/
def errEntry (source : Source) (actor : Actor) (clock : Int) (item : Item)
    (msg : String) : LogEntry :=
  { operation := Operation.error
    entityType := EntityType.product
    message := s!"Sync error for product SKU {skuText item}: {msg}"
    level := Level.error
    source := source
    userId := some actor.id
    username := some actor.username
    details := some (Details.errorInfo msg item)
    createdAt := clock }

/-- Per-item `catch`: `results.errors++` and append the error entry. -/
def applyErr (source : Source) (actor : Actor) (st : SyncState) (item : Item)
    (msg : String) : SyncState :=
  { st with
    res := { st.res with errors := st.res.errors + 1 }
    logs := st.logs ++ [errEntry source actor st.clock item msg]
    clock := st.clock + 1 }

/-- `Object.assign(existingProduct, productData)` followed by the sync
bookkeeping fields, as in the update branch. -/
def assignItem (p : Product) (item : Item) (source : Source) (clock : Int) :
    Product :=
  { p with
    sku := item.sku.getD p.sku
    name := item.name.getD p.name
    description := match item.description with
      | some d => some d
      | none => p.description
    price := item.price.getD p.price
    category := item.category.getD p.category
    stock := item.stock.getD p.stock
    lastSyncedAt := clock
    syncSource := source
    syncStatus := SyncStatus.synced }

/-- Update branch: overwrite the found document, persist, `results.updated++`,
append the success entry. -/
def applyUpdate (source : Source) (actor : Actor) (st : SyncState)
    (p : Product) (item : Item) : SyncState :=
  let p' := assignItem p item source st.clock
  { st with
    products := st.products.map (fun q => if q.id == p.id then p' else q)
    res := { st.res with updated := st.res.updated + 1 }
    logs := st.logs ++ [{
      operation := Operation.update
      entityType := EntityType.product
      entityId := some p.id
      message := s!"Product synced (updated): {nameText item} (SKU: {skuText item})"
      level := Level.success
      source := source
      userId := some actor.id
      username := some actor.username
      createdAt := st.clock }]
    clock := st.clock + 1 }

/-- Create branch: build a new document from the payload plus defaults,
persist, `results.created++`, append the success entry. -/
def applyCreate (source : Source) (actor : Actor) (st : SyncState)
    (item : Item) : SyncState :=
  let p : Product :=
    { id := st.nextId
      sku := item.sku.getD ""
      name := item.name.getD ""
      description := item.description
      price := item.price.getD 0
      category := item.category.getD ""
      stock := item.stock.getD 0
      status := ProductStatus.active
      lastSyncedAt := st.clock
      syncSource := source
      syncStatus := SyncStatus.synced }
  { st with
    products := st.products ++ [p]
    nextId := st.nextId + 1
    res := { st.res with created := st.res.created + 1 }
    logs := st.logs ++ [{
      operation := Operation.create
      entityType := EntityType.product
      entityId := some p.id
      message := s!"Product synced (created): {nameText item} (SKU: {skuText item})"
      level := Level.success
      source := source
      userId := some actor.id
      username := some actor.username
      createdAt := st.clock }]
    clock := st.clock + 1 }

/-- One iteration of the `for (const productData of products)` loop. -/
def syncStep (source : Source) (actor : Actor) (st : SyncState) (item : Item) :
    SyncState :=
  match lookupSku st.products item.sku with
  | some p =>
    match updateErr item with
    | some msg => applyErr source actor st item msg
    | none => applyUpdate source actor st p item
  | none =>
    match newErr item with
    | some msg => applyErr source actor st item msg
    | none => applyCreate source actor st item

/-- The batch-start audit entry (`Bulk sync started ...`). -/
def startEntry (source : Source) (actor : Actor) (ip ua : Option String)
    (n : Nat) (clock : Int) : LogEntry :=
  { operation := Operation.sync
    entityType := EntityType.product
    message := s!"Bulk sync started for {n} products"
    level := Level.info
    source := source
    userId := some actor.id
    username := some actor.username
    ipAddress := ip
    userAgent := ua
    createdAt := clock }

/-- The batch-summary audit entry (`Bulk sync completed ...`). -/
def summaryEntry (source : Source) (actor : Actor) (ip ua : Option String)
    (r : SyncResults) (duration : Int) (clock : Int) : LogEntry :=
  { operation := Operation.sync
    entityType := EntityType.product
    message := s!"Bulk sync completed: {r.created} created, {r.updated} updated, {r.errors} errors"
    level := if r.errors > 0 then Level.warning else Level.success
    source := source
    userId := some actor.id
    username := some actor.username
    details := some (Details.syncResults r)
    duration := some duration
    ipAddress := ip
    userAgent := ua
    createdAt := clock }

/-- What `POST /sync` responds with and leaves behind. -/
structure SyncOutcome where
  results : SyncResults
  duration : Int
  products : List Product
  logs : List LogEntry
  clock : Int
  nextId : Nat
deriving Repr

/-- The state of the handler after initializing `results` (with
`total = products.length`) and appending the batch-start audit entry,
before the first loop iteration. -/
def syncInit (source : Source) (actor : Actor) (ip ua : Option String)
    (n : Nat) (products : List Product) (logs : List LogEntry)
    (clock : Int) (nextId : Nat) : SyncState :=
  { products := products
    logs := logs ++ [startEntry source actor ip ua n clock]
    clock := clock + 1
    nextId := nextId
    res := { created := 0, updated := 0, errors := 0, total := n } }

/-- The `POST /sync` handler body: initialize counters, log start, run the
per-item loop in input order, log the summary, return the results. -/
def syncBatch (source : Source) (actor : Actor) (ip ua : Option String)
    (items : List Item) (products : List Product) (logs : List LogEntry)
    (clock : Int) (nextId : Nat) : SyncOutcome :=
  let startTime := clock
  let st1 := items.foldl (syncStep source actor)
    (syncInit source actor ip ua items.length products logs clock nextId)
  let duration := st1.clock - startTime
  { results := st1.res
    duration := duration
    products := st1.products
    logs := st1.logs ++ [summaryEntry source actor ip ua st1.res duration st1.clock]
    clock := st1.clock + 1
    nextId := st1.nextId }

/-! ## Log Query Service (src/unnamed/part_001: GET /, GET /export/csv) -/

/-- Caller-supplied query criteria (`req.query`) for the log routes.
`startDate`/`endDate` are already-parsed timestamps; `userId` references a
user id. -/
structure LogFilter where
  operation : Option Operation := none
  entityType : Option EntityType := none
  level : Option Level := none
  source : Option Source := none
  userId : Option Nat := none
  startDate : Option Int := none
  endDate : Option Int := none
  search : Option String := none
deriving DecidableEq, Repr

/-- Whether `needle` occurs as a contiguous run inside `hay`. -/
def hasSubstring (needle : List Char) : List Char → Bool
  | [] => needle.isEmpty
  | c :: t => List.isPrefixOf needle (c :: t) || hasSubstring needle t

/-- Characters of a string, lower-cased. -/
def lowerChars (s : String) : List Char := s.toList.map Char.toLower

/-- Case-insensitive substring match, modelling
`{ $regex: search, $options: 'i' }` for a pattern without regex
metacharacters. -/
def containsCI (hay needle : String) : Bool :=
  hasSubstring (lowerChars needle) (lowerChars hay)

/-- The filter document built by the listing handler `GET /` (operation,
entityType, level, source, userId, createdAt range, message search),
applied to one entry. -/
def listMatch (f : LogFilter) (e : LogEntry) : Bool :=
  (match f.operation with | some o => e.operation == o | none => true) &&
  (match f.entityType with | some t => e.entityType == t | none => true) &&
  (match f.level with | some l => e.level == l | none => true) &&
  (match f.source with | some s => e.source == s | none => true) &&
  (match f.userId with | some u => e.userId == some u | none => true) &&
  (match f.startDate with | some d => decide (d ≤ e.createdAt) | none => true) &&
  (match f.endDate with | some d => decide (e.createdAt ≤ d) | none => true) &&
  (match f.search with | some s => containsCI e.message s | none => true)

/-- The filter document built by the CSV export handler `GET /export/csv`
(operation, entityType, level, source, createdAt range), applied to one
entry. -/
def csvMatch (f : LogFilter) (e : LogEntry) : Bool :=
  (match f.operation with | some o => e.operation == o | none => true) &&
  (match f.entityType with | some t => e.entityType == t | none => true) &&
  (match f.level with | some l => e.level == l | none => true) &&
  (match f.source with | some s => e.source == s | none => true) &&
  (match f.startDate with | some d => decide (d ≤ e.createdAt) | none => true) &&
  (match f.endDate with | some d => decide (e.createdAt ≤ d) | none => true)

/-- Insertion step for the newest-first sort (`.sort({ createdAt: -1 })`). -/
def insertDesc (e : LogEntry) : List LogEntry → List LogEntry
  | [] => [e]
  | x :: xs => if x.createdAt < e.createdAt then e :: x :: xs else x :: insertDesc e xs

/-- Sort entries newest first. -/
def sortDesc (l : List LogEntry) : List LogEntry := l.foldr insertDesc []

/-- `Math.ceil(total / limit)` on naturals (limit ≥ 1). -/
def ceilDiv (total limit : Nat) : Nat := (total + limit - 1) / limit

structure Pagination where
  current : Nat
  pages : Nat
  total : Nat
  hasNext : Bool
  hasPrev : Bool
deriving DecidableEq, Repr

structure ListResponse where
  logs : List LogEntry
  pagination : Pagination
deriving DecidableEq, Repr

/-- The `GET /` listing handler: filter, sort newest first, skip
`(page-1)*limit`, take `limit`, and report pagination computed from the
total matching count. -/
def listLogs (f : LogFilter) (page limit : Nat) (store : List LogEntry) :
    ListResponse :=
  let matching := store.filter (listMatch f)
  let total := matching.length
  let entries := ((sortDesc matching).drop ((page - 1) * limit)).take limit
  { logs := entries
    pagination :=
      { current := page
        pages := ceilDiv total limit
        total := total
        hasNext := page < ceilDiv total limit
        hasPrev := 1 < page } }

/-- The set of entries the listing handler selects for a filter, before
sorting and pagination. -/
def listSelect (f : LogFilter) (store : List LogEntry) : List LogEntry :=
  store.filter (listMatch f)

/-- The set of entries the CSV export handler selects for a filter, before
sorting and the 5000 cap. -/
def csvSelect (f : LogFilter) (store : List LogEntry) : List LogEntry :=
  store.filter (csvMatch f)

/-- `log.message.replace(/"/g, '""')` on the character list. -/
def escQuotes : List Char → List Char
  | [] => []
  | c :: cs =>
    if c = '"' then '"' :: '"' :: escQuotes cs else c :: escQuotes cs

/-- The quoted message field: `` `"${(log.message || '').replace(/"/g, '""')}"` ``. -/
def quoteField (s : String) : String :=
  "\"" ++ String.mk (escQuotes s.toList) ++ "\""

/-- `log.userId ? log.userId.username : log.username || 'System'` after
`populate('userId', 'username')` against the users collection: the
populated user's name when the reference resolves, otherwise the entry's
own `username` (an empty string is falsy), otherwise `"System"`. -/
def userColumn (users : List (Nat × String)) (e : LogEntry) : String :=
  match e.userId.bind (fun uid => (users.find? (fun u => u.1 == uid)).map Prod.snd) with
  | some uname => uname
  | none =>
    match e.username with
    | some u => if u == "" then "System" else u
    | none => "System"

def levelText : Level → String
  | Level.info => "info" | Level.warning => "warning"
  | Level.error => "error" | Level.success => "success"

def opText : Operation → String
  | Operation.create => "create" | Operation.update => "update"
  | Operation.delete => "delete" | Operation.sync => "sync"
  | Operation.error => "error" | Operation.info => "info"
  | Operation.warning => "warning"

def entityText : EntityType → String
  | EntityType.product => "product" | EntityType.user => "user"
  | EntityType.system => "system" | EntityType.auth => "auth"

def sourceText : Source → String
  | Source.api => "api" | Source.web => "web"
  | Source.system => "system" | Source.sync => "sync"

/-- The field array one CSV row is built from, in column order
`Date,Time,Level,Operation,Entity Type,Message,User,Source,IP Address`.
`isoDate`/`isoTime` stand for the two pieces of
`createdAt.toISOString()` (a runtime-library function). -/
def csvFields (isoDate isoTime : Int → String) (users : List (Nat × String))
    (e : LogEntry) : List String :=
  [ isoDate e.createdAt
  , isoTime e.createdAt
  , levelText e.level
  , opText e.operation
  , entityText e.entityType
  , quoteField e.message
  , userColumn users e
  , sourceText e.source
  , e.ipAddress.getD "" ]

/-- One rendered CSV row (`[...].join(',')`). -/
def csvRow (isoDate isoTime : Int → String) (users : List (Nat × String))
    (e : LogEntry) : String :=
  String.intercalate "," (csvFields isoDate isoTime users e)

/-- The CSV export body: filtered entries, newest first, capped at 5000,
rendered under the fixed header. -/
def exportCsv (isoDate isoTime : Int → String) (users : List (Nat × String))
    (f : LogFilter) (store : List LogEntry) : String :=
  let rows := ((sortDesc (csvSelect f store)).take 5000).map
    (csvRow isoDate isoTime users)
  "Date,Time,Level,Operation,Entity Type,Message,User,Source,IP Address\n" ++
    String.intercalate "\n" rows

/-! ## Retention Service (src/unnamed/part_001: DELETE /cleanup) -/

/-- Milliseconds in a day (`setDate(getDate() - daysToKeep)` modelled as a
fixed-length-day shift). -/
def dayMs : Int := 86400000

/-- HTTP-level response of the `DELETE /cleanup` handler: 403 with a
message for a non-admin, otherwise 200 with the deleted count. -/
inductive CleanupResp where
  | forbidden (msg : String)
  | ok (deletedCount : Nat)
deriving DecidableEq, Repr

/-- Outcome of the `DELETE /cleanup` handler: the HTTP-level response and
the log store it leaves behind. -/
structure CleanupOutcome where
  response : CleanupResp
  logs : List LogEntry
deriving DecidableEq, Repr

/-- `parseInt(req.query.days) || 30`: an absent or unparsable parameter is
modelled as `none`; `0` (and `NaN`, i.e. `none`) is falsy and falls back
to 30. -/
def daysToKeepOf (daysParam : Option Int) : Int :=
  match daysParam with
  | some d => if d = 0 then 30 else d
  | none => 30

/-- The audit entry appended after a purge. -/
def cleanupEntry (actor : Actor) (ip ua : Option String) (deletedCount : Nat)
    (daysToKeep : Int) (now : Int) : LogEntry :=
  { operation := Operation.delete
    entityType := EntityType.system
    message := s!"Log cleanup completed: {deletedCount} logs older than {daysToKeep} days were deleted"
    level := Level.info
    source := Source.web
    userId := some actor.id
    username := some actor.username
    details := some (Details.cleanupInfo deletedCount daysToKeep)
    ipAddress := ip
    userAgent := ua
    createdAt := now }

/-- The `DELETE /cleanup` handler: admin check, cutoff at now minus the
kept-days threshold, `deleteMany({createdAt: {$lt: cutoff}})`, then one
audit entry recording the purge. -/
def cleanup (actor : Actor) (daysParam : Option Int) (now : Int)
    (ip ua : Option String) (store : List LogEntry) : CleanupOutcome :=
  if actor.role ≠ Role.admin then
    { response := CleanupResp.forbidden "Admin access required", logs := store }
  else
    let daysToKeep := daysToKeepOf daysParam
    let cutoff := now - daysToKeep * dayMs
    let deletedCount := store.countP (fun e => decide (e.createdAt < cutoff))
    let kept := store.filter (fun e => !decide (e.createdAt < cutoff))
    { response := CleanupResp.ok deletedCount
      logs := kept ++ [cleanupEntry actor ip ua deletedCount daysToKeep now] }

/-! ## Lemmas about the per-item sync loop -/

theorem syncStep_res_total (source : Source) (actor : Actor) (st : SyncState)
    (item : Item) : (syncStep source actor st item).res.total = st.res.total := by
  unfold syncStep
  cases lookupSku st.products item.sku with
  | some p =>
    cases updateErr item with
    | some msg => simp [applyErr]
    | none => simp [applyUpdate]
  | none =>
    cases newErr item with
    | some msg => simp [applyErr]
    | none => simp [applyCreate]

theorem syncStep_res_sum (source : Source) (actor : Actor) (st : SyncState)
    (item : Item) :
    (syncStep source actor st item).res.created +
      (syncStep source actor st item).res.updated +
      (syncStep source actor st item).res.errors =
    st.res.created + st.res.updated + st.res.errors + 1 := by
  unfold syncStep
  cases lookupSku st.products item.sku with
  | some p =>
    cases updateErr item with
    | some msg => simp [applyErr]; omega
    | none => simp [applyUpdate]; omega
  | none =>
    cases newErr item with
    | some msg => simp [applyErr]; omega
    | none => simp [applyCreate]; omega

theorem syncStep_clock (source : Source) (actor : Actor) (st : SyncState)
    (item : Item) : (syncStep source actor st item).clock = st.clock + 1 := by
  unfold syncStep
  cases lookupSku st.products item.sku with
  | some p =>
    cases updateErr item with
    | some msg => simp [applyErr]
    | none => simp [applyUpdate]
  | none =>
    cases newErr item with
    | some msg => simp [applyErr]
    | none => simp [applyCreate]

theorem syncStep_logs (source : Source) (actor : Actor) (st : SyncState)
    (item : Item) :
    ∃ e, (syncStep source actor st item).logs = st.logs ++ [e] ∧
      e.operation ≠ Operation.sync := by
  unfold syncStep
  cases lookupSku st.products item.sku with
  | some p =>
    cases updateErr item with
    | some msg =>
      exact ⟨errEntry source actor st.clock item msg, rfl, by simp [errEntry]⟩
    | none => exact ⟨_, rfl, by simp [applyUpdate]⟩
  | none =>
    cases newErr item with
    | some msg =>
      exact ⟨errEntry source actor st.clock item msg, rfl, by simp [errEntry]⟩
    | none => exact ⟨_, rfl, by simp [applyCreate]⟩

theorem syncLoop_res_total (source : Source) (actor : Actor) (items : List Item) :
    ∀ st : SyncState,
      (items.foldl (syncStep source actor) st).res.total = st.res.total := by
  induction items with
  | nil => intro st; rfl
  | cons it rest ih =>
    intro st
    rw [List.foldl_cons, ih, syncStep_res_total]

theorem syncLoop_res_sum (source : Source) (actor : Actor) (items : List Item) :
    ∀ st : SyncState,
      (items.foldl (syncStep source actor) st).res.created +
        (items.foldl (syncStep source actor) st).res.updated +
        (items.foldl (syncStep source actor) st).res.errors =
      st.res.created + st.res.updated + st.res.errors + items.length := by
  induction items with
  | nil => intro st; simp
  | cons it rest ih =>
    intro st
    rw [List.foldl_cons, ih, syncStep_res_sum]
    simp
    omega

theorem syncLoop_clock (source : Source) (actor : Actor) (items : List Item) :
    ∀ st : SyncState,
      (items.foldl (syncStep source actor) st).clock = st.clock + items.length := by
  induction items with
  | nil => intro st; simp
  | cons it rest ih =>
    intro st
    rw [List.foldl_cons, ih, syncStep_clock]
    simp
    omega

theorem syncLoop_logs (source : Source) (actor : Actor) (items : List Item) :
    ∀ st : SyncState,
      ∃ mid, (items.foldl (syncStep source actor) st).logs = st.logs ++ mid ∧
        ∀ e ∈ mid, e.operation ≠ Operation.sync := by
  induction items with
  | nil => intro st; exact ⟨[], by simp, by simp⟩
  | cons it rest ih =>
    intro st
    obtain ⟨e, he, hop⟩ := syncStep_logs source actor st it
    obtain ⟨mid, hmid, hops⟩ := ih (syncStep source actor st it)
    refine ⟨e :: mid, ?_, ?_⟩
    · rw [List.foldl_cons, hmid, he]
      simp
    · intro x hx
      rcases List.mem_cons.1 hx with h | h
      · exact h ▸ hop
      · exact hops x h

theorem syncStep_of_err (source : Source) (actor : Actor) (st : SyncState)
    (item : Item) (msg : String) (h : itemError st.products item = some msg) :
    syncStep source actor st item = applyErr source actor st item msg := by
  unfold itemError at h
  unfold syncStep
  revert h
  cases lookupSku st.products item.sku with
  | some p => intro h; dsimp only at h ⊢; rw [h]
  | none => intro h; dsimp only at h ⊢; rw [h]

/-- C1: For every batch passed to the bulk sync operation, the returned
result satisfies `created + updated + errors == total` and
`total == length(items)`: each item in the batch increments exactly one of
the three counters, and `total` is the batch length. -/
theorem sync_counts_partition (source : Source) (actor : Actor)
    (ip ua : Option String) (items : List Item) (products : List Product)
    (logs : List LogEntry) (clock : Int) (nextId : Nat) :
    let out := syncBatch source actor ip ua items products logs clock nextId
    out.results.created + out.results.updated + out.results.errors =
      out.results.total ∧
    out.results.total = items.length := by
  simp only [syncBatch, syncLoop_res_sum, syncLoop_res_total]
  simp [syncInit]

/-- What the per-item loop iteration does to an item with no SKU: `errors`
goes up by one, the create/update counters and the product store are
untouched, and the one appended audit entry is the error-level entry for
the failed SKU validation. -/
def MissingSkuOutcome (source : Source) (actor : Actor) (st : SyncState)
    (item : Item) : Prop :=
    (syncStep source actor st item).res.errors = st.res.errors + 1 ∧
    (syncStep source actor st item).res.created = st.res.created ∧
    (syncStep source actor st item).res.updated = st.res.updated ∧
    (syncStep source actor st item).products = st.products ∧
    (syncStep source actor st item).logs =
      st.logs ++ [errEntry source actor st.clock item "sku is required"] ∧
    (errEntry source actor st.clock item "sku is required").level =
      Level.error

/-- C2: An item with no SKU field is counted as a per-item error (`errors`
is incremented for it) and it neither creates a new product nor updates any
existing product: the product store after the item's loop iteration is
unchanged, the create/update counters are unchanged, and the appended
audit entry is error-level. -/
theorem sync_missing_sku_is_error (source : Source) (actor : Actor)
    (st : SyncState) (item : Item) (h : item.sku = none) :
    MissingSkuOutcome source actor st item := by
  unfold MissingSkuOutcome
  have hstep : syncStep source actor st item =
      applyErr source actor st item "sku is required" := by
    apply syncStep_of_err
    simp [itemError, lookupSku, newErr, h]
  rw [hstep]
  simp [applyErr, errEntry]

/-- What a failing item does to a batch run: the loop takes the catch path
at that item (errors + 1, error-level entry with the failure message and
offending payload appended, product store untouched) and then keeps
folding over the remaining items, and the whole batch still reports a
summary whose `total` covers every item. -/
def ItemFailureOutcome (source : Source) (actor : Actor) (st0 : SyncState)
    (pre post : List Item) (item : Item) (msg : String) : Prop :=
    let stPre := pre.foldl (syncStep source actor) st0
    (pre ++ item :: post).foldl (syncStep source actor) st0 =
      post.foldl (syncStep source actor) (applyErr source actor stPre item msg) ∧
    syncStep source actor stPre item = applyErr source actor stPre item msg ∧
    (applyErr source actor stPre item msg).res.errors = stPre.res.errors + 1 ∧
    (applyErr source actor stPre item msg).res.created = stPre.res.created ∧
    (applyErr source actor stPre item msg).res.updated = stPre.res.updated ∧
    (applyErr source actor stPre item msg).products = stPre.products ∧
    (applyErr source actor stPre item msg).logs =
      stPre.logs ++ [errEntry source actor stPre.clock item msg] ∧
    (errEntry source actor stPre.clock item msg).level = Level.error ∧
    (errEntry source actor stPre.clock item msg).details =
      some (Details.errorInfo msg item) ∧
    (∀ (ip ua : Option String) (products : List Product)
      (logs : List LogEntry) (clock : Int) (nextId : Nat),
      (syncBatch source actor ip ua (pre ++ item :: post) products logs clock
        nextId).results.total = pre.length + 1 + post.length)

/-- C3: if the lookup-or-persist step for an item fails, the bulk sync does
not abort: processing that item takes the catch path (increments `errors`,
appends an error-level audit entry carrying the failure message and the
offending payload, leaves the product store alone), the loop continues
with the remaining items, and the batch operation still returns a result
summary covering every item. -/
theorem sync_item_failure_isolated (source : Source) (actor : Actor)
    (st0 : SyncState) (pre post : List Item) (item : Item) (msg : String)
    (hfail : itemError ((pre.foldl (syncStep source actor) st0).products)
      item = some msg) :
    ItemFailureOutcome source actor st0 pre post item msg := by
  unfold ItemFailureOutcome
  intro stPre
  have hstep : syncStep source actor stPre item =
      applyErr source actor stPre item msg := syncStep_of_err _ _ _ _ _ hfail
  refine ⟨?_, hstep, by simp [applyErr], by simp [applyErr], by simp [applyErr],
    by simp [applyErr], rfl, by simp [errEntry], by simp [errEntry], ?_⟩
  · rw [List.foldl_append, List.foldl_cons, hstep]
  · intro ip ua products logs clock nextId
    simp only [syncBatch, syncLoop_res_total, syncInit]
    simp
    omega

/-- C6: every batch, including the empty one, emits exactly one info-level
start entry announcing the item count before any item is processed and
exactly one summary entry after all items: the final log store is the old
store, then the start entry, then only non-`sync`-operation per-item
entries, then the summary entry, whose level is success exactly when
`errors == 0` (warning otherwise), whose details carry the full result
counts, and whose duration is the elapsed clock time of the batch (the
post-loop clock minus the start-of-batch clock). -/
theorem sync_one_start_one_summary (source : Source) (actor : Actor)
    (ip ua : Option String) (items : List Item) (products : List Product)
    (logs : List LogEntry) (clock : Int) (nextId : Nat) :
    let out := syncBatch source actor ip ua items products logs clock nextId
    ∃ mid,
      out.logs = logs ++ [startEntry source actor ip ua items.length clock] ++
        mid ++ [summaryEntry source actor ip ua out.results out.duration
          (clock + 1 + items.length)] ∧
      (∀ e ∈ mid, e.operation ≠ Operation.sync) ∧
      (startEntry source actor ip ua items.length clock).operation =
        Operation.sync ∧
      (startEntry source actor ip ua items.length clock).level = Level.info ∧
      (startEntry source actor ip ua items.length clock).message =
        s!"Bulk sync started for {items.length} products" ∧
      (summaryEntry source actor ip ua out.results out.duration
        (clock + 1 + items.length)).operation = Operation.sync ∧
      (summaryEntry source actor ip ua out.results out.duration
        (clock + 1 + items.length)).level =
        (if out.results.errors = 0 then Level.success else Level.warning) ∧
      (summaryEntry source actor ip ua out.results out.duration
        (clock + 1 + items.length)).details =
        some (Details.syncResults out.results) ∧
      (summaryEntry source actor ip ua out.results out.duration
        (clock + 1 + items.length)).duration = some out.duration ∧
      out.duration = (clock + 1 + items.length) - clock := by
  intro out
  obtain ⟨mid, hmid, hops⟩ := syncLoop_logs source actor items
    (syncInit source actor ip ua items.length products logs clock nextId)
  have hclock :
      (items.foldl (syncStep source actor)
        (syncInit source actor ip ua items.length products logs clock
          nextId)).clock = clock + 1 + items.length := by
    rw [syncLoop_clock]
    rfl
  have hlogs : out.logs =
      (items.foldl (syncStep source actor)
        (syncInit source actor ip ua items.length products logs clock
          nextId)).logs ++
      [summaryEntry source actor ip ua out.results out.duration
        ((items.foldl (syncStep source actor)
          (syncInit source actor ip ua items.length products logs clock
            nextId)).clock)] := rfl
  have hdur : out.duration =
      (items.foldl (syncStep source actor)
        (syncInit source actor ip ua items.length products logs clock
          nextId)).clock - clock := rfl
  refine ⟨mid, ?_, hops, rfl, rfl, rfl, rfl, ?_, rfl, rfl, ?_⟩
  · rw [hlogs, hmid, hclock]
    simp [syncInit, List.append_assoc]
  · show (summaryEntry _ _ _ _ _ _ _).level = _
    simp only [summaryEntry]
    rcases Nat.eq_zero_or_pos out.results.errors with h | h
    · simp [h]
    · have hpos : out.results.errors > 0 := h
      simp [Nat.pos_iff_ne_zero.mp h, hpos]
  · rw [hdur, hclock]

/-- A concrete actor for witness instances. -/
def wActor : Actor := { id := 7, username := "alice", role := Role.admin }

/-- A concrete loop state for witness instances. -/
def wState : SyncState :=
  { products := [], logs := [], clock := 0, nextId := 0
    res := { created := 0, updated := 0, errors := 0, total := 1 } }

/-- A concrete payload item with no SKU. -/
def wNoSkuItem : Item := { name := some "NoSku" }

/-- Witness for C2 at a concrete item with no SKU. -/
theorem sync_missing_sku_is_error_witness :
    MissingSkuOutcome Source.api wActor wState wNoSkuItem :=
  sync_missing_sku_is_error Source.api wActor wState wNoSkuItem rfl

/-- Witness for C3: a batch whose only item fails validation. -/
theorem sync_item_failure_isolated_witness :
    ItemFailureOutcome Source.api wActor wState [] [] wNoSkuItem
      "sku is required" :=
  sync_item_failure_isolated Source.api wActor wState [] [] wNoSkuItem
    "sku is required" rfl

/-! ## Log Query Service theorems -/

/-- The filter and entry exhibiting the listing/export filter divergence:
a free-text search the entry's message does not contain. -/
def bugFilter : LogFilter := { search := some "alpha" }

def bugEntry : LogEntry :=
  { operation := Operation.info
    entityType := EntityType.system
    message := "beta"
    createdAt := 0 }

/-- C4 (counterexample): the CSV export does not apply the same predicates
as the listing. For the filter `{search := "alpha"}` and a store holding
one entry whose message is "beta", the listing selects nothing while the
CSV export selects the entry: the export handler never applies the
`search` (nor the `userId`) filter, contradicting its own comment
"Apply same filters as main logs endpoint". -/
theorem csv_filter_divergence :
    listSelect bugFilter [bugEntry] = [] ∧
    csvSelect bugFilter [bugEntry] = [bugEntry] := by
  constructor
  · rfl
  · rfl

/-- Spec-side statement of "every internal double quote doubled": each
character maps to itself, except `"` which maps to two copies of itself. -/
def dq (c : Char) : List Char := if c = '"' then [c, c] else [c]

theorem escQuotes_eq_bind (l : List Char) : escQuotes l = l.flatMap dq := by
  induction l with
  | nil => rfl
  | cons c cs ih =>
    by_cases h : c = '"'
    · simp [escQuotes, dq, h, ih]
    · simp [escQuotes, dq, h, ih]

/-- The concrete entry of the spec's CSV-escaping scenario. -/
def quoteSampleEntry : LogEntry :=
  { operation := Operation.info
    entityType := EntityType.system
    message := "He said \"hi\""
    createdAt := 0 }

/-- C7: in every rendered CSV row, the message field (column 5, 0-based)
is the message wrapped in double quotes with every internal double quote
doubled, and the User column (column 6) is the associated username — the
populated user's name when the reference resolves, `"System"` when the
entry has no associated user; the concrete entry with message
`He said "hi"` renders its message field as `"He said ""hi"""`. -/
theorem csv_escaping_and_user (isoDate isoTime : Int → String)
    (users : List (Nat × String)) (e : LogEntry) (uid : Nat)
    (uname : String) :
    (csvFields isoDate isoTime users e)[5]? =
      some ("\"" ++ String.mk (e.message.toList.flatMap dq) ++ "\"") ∧
    (csvFields isoDate isoTime [(uid, uname)] { e with userId := some uid })[6]? =
      some uname ∧
    (csvFields isoDate isoTime users
      { e with userId := none, username := none })[6]? = some "System" ∧
    (csvFields isoDate isoTime users quoteSampleEntry)[5]? =
      some "\"He said \"\"hi\"\"\"" := by
  refine ⟨?_, ?_, ?_, ?_⟩
  · show some (quoteField e.message) = _
    rw [quoteField, escQuotes_eq_bind]
  · show some (userColumn [(uid, uname)] { e with userId := some uid }) = _
    simp [userColumn]
  · show some (userColumn users { e with userId := none, username := none }) = _
    simp [userColumn]
  · rfl

theorem length_insertDesc (e : LogEntry) (l : List LogEntry) :
    (insertDesc e l).length = l.length + 1 := by
  induction l with
  | nil => rfl
  | cons x xs ih =>
    unfold insertDesc
    by_cases h : x.createdAt < e.createdAt
    · simp [h]
    · simp [h, ih]

theorem length_sortDesc (l : List LogEntry) : (sortDesc l).length = l.length := by
  induction l with
  | nil => rfl
  | cons x xs ih =>
    show (insertDesc x (sortDesc xs)).length = xs.length + 1
    rw [length_insertDesc, ih]

theorem le_ceilDiv_mul (t k : Nat) (hk : 0 < k) : t ≤ ceilDiv t k * k := by
  obtain ⟨j, rfl⟩ : ∃ j, k = j + 1 := ⟨k - 1, by omega⟩
  unfold ceilDiv
  have h := Nat.div_add_mod (t + (j + 1) - 1) (j + 1)
  have h2 : (t + (j + 1) - 1) % (j + 1) < j + 1 := Nat.mod_lt _ (by omega)
  have h3 : t + (j + 1) - 1 = t + j := by omega
  rw [h3] at h h2 ⊢
  set q := (t + j) / (j + 1) with hq
  set r := (t + j) % (j + 1) with hr
  nlinarith [h, h2]

theorem ceilDiv_mul_lt (t k : Nat) (hk : 0 < k) : ceilDiv t k * k < t + k := by
  obtain ⟨j, rfl⟩ : ∃ j, k = j + 1 := ⟨k - 1, by omega⟩
  unfold ceilDiv
  have h := Nat.div_add_mod (t + (j + 1) - 1) (j + 1)
  have h3 : t + (j + 1) - 1 = t + j := by omega
  rw [h3] at h ⊢
  set q := (t + j) / (j + 1) with hq
  set r := (t + j) % (j + 1) with hr
  nlinarith [h]

theorem sum_chunk_lengths {α : Type} (k : Nat) :
    ∀ (n : Nat) (l : List α), l.length ≤ n * k →
      ∑ i in Finset.range n, ((l.drop (i * k)).take k).length = l.length := by
  intro n
  induction n with
  | zero =>
    intro l h
    simp only [Nat.zero_mul, Nat.le_zero, List.length_eq_zero] at h
    simp [h]
  | succ n ih =>
    intro l h
    rw [Finset.sum_range_succ']
    have hdrop : ∀ i : Nat, l.drop ((i + 1) * k) = (l.drop k).drop (i * k) := by
      intro i
      rw [List.drop_drop]
      congr 1
      ring
    have hsum : ∑ i in Finset.range n, ((l.drop ((i + 1) * k)).take k).length
        = (l.drop k).length := by
      simp only [hdrop]
      apply ih
      rw [List.length_drop]
      rw [Nat.succ_mul] at h
      set m := n * k with hm
      omega
    rw [hsum]
    simp only [Nat.zero_mul, List.drop_zero, List.length_drop, List.length_take]
    rw [Nat.min_def]
    split <;> omega

/-- Pagination contract of the listing at a fixed filter, page and store:
`pages` is ceiling division of the matching total by the page size (the
least page count whose capacity covers the total), `hasNext`/`hasPrev`
compare the current page against the page count and 1, and the page
contents across all pages add up to exactly `total` entries. -/
def PaginationSpec (f : LogFilter) (page limit : Nat)
    (store : List LogEntry) : Prop :=
    (listLogs f page limit store).pagination.pages =
      ceilDiv (listLogs f page limit store).pagination.total limit ∧
    (listLogs f page limit store).pagination.total ≤
      (listLogs f page limit store).pagination.pages * limit ∧
    (listLogs f page limit store).pagination.pages * limit <
      (listLogs f page limit store).pagination.total + limit ∧
    ((listLogs f page limit store).pagination.hasNext = true ↔
      page < (listLogs f page limit store).pagination.pages) ∧
    ((listLogs f page limit store).pagination.hasPrev = true ↔ 1 < page) ∧
    ∑ i in Finset.range (listLogs f page limit store).pagination.pages,
      (listLogs f (i + 1) limit store).logs.length =
      (listLogs f page limit store).pagination.total

/-- C8: for every filter and positive page size, the listing's pagination
reports `pages = ceil(total / pageSize)`, `hasNext` exactly when the
current page is less than `pages`, `hasPrev` exactly when it exceeds 1,
and the entries of all pages together contain exactly `total` entries. -/
theorem listLogs_pagination_correct (f : LogFilter) (page limit : Nat)
    (store : List LogEntry) (hk : 0 < limit) :
    PaginationSpec f page limit store := by
  unfold PaginationSpec
  refine ⟨rfl, ?_, ?_, ?_, ?_, ?_⟩
  · exact le_ceilDiv_mul _ _ hk
  · exact ceilDiv_mul_lt _ _ hk
  · simp [listLogs]
  · simp [listLogs]
  · show ∑ i in Finset.range (ceilDiv (store.filter (listMatch f)).length limit),
      (((sortDesc (store.filter (listMatch f))).drop ((i + 1 - 1) * limit)).take
        limit).length = (store.filter (listMatch f)).length
    simp only [Nat.add_sub_cancel]
    rw [← length_sortDesc (store.filter (listMatch f))]
    apply sum_chunk_lengths limit
    rw [length_sortDesc]
    exact le_ceilDiv_mul _ _ hk

/-- A concrete store for the pagination witness. -/
def wLogStore : List LogEntry :=
  [ { operation := Operation.create, entityType := EntityType.product
      message := "a", level := Level.error, createdAt := 3 }
  , { operation := Operation.update, entityType := EntityType.product
      message := "b", level := Level.info, createdAt := 5 }
  , { operation := Operation.sync, entityType := EntityType.product
      message := "c", level := Level.error, createdAt := 4 } ]

/-- Witness for C8 at a concrete filter, page, page size and store. -/
theorem listLogs_pagination_correct_witness :
    PaginationSpec { level := some Level.error } 1 2 wLogStore :=
  listLogs_pagination_correct { level := some Level.error } 1 2 wLogStore
    (by decide)

/-! ## Retention Service theorems -/

/-- What an admin-invoked purge with an explicit positive `days = D` does:
responds with the count of entries strictly older than `now - D` days,
leaves behind exactly the entries at or after the cutoff plus one new
info-level `delete`/`system` audit entry whose details carry the deleted
count and the day threshold, every remaining entry (the new one included)
is at or after the cutoff, and an unspecified `days` behaves as 30. -/
def PurgeSpec (actor : Actor) (D : Nat) (now : Int) (ip ua : Option String)
    (store : List LogEntry) : Prop :=
    let cutoff := now - (D : Int) * dayMs
    let deleted := store.countP (fun e => decide (e.createdAt < cutoff))
    let out := cleanup actor (some (D : Int)) now ip ua store
    out.response = CleanupResp.ok deleted ∧
    out.logs = store.filter (fun e => !decide (e.createdAt < cutoff)) ++
      [cleanupEntry actor ip ua deleted (D : Int) now] ∧
    (cleanupEntry actor ip ua deleted (D : Int) now).operation =
      Operation.delete ∧
    (cleanupEntry actor ip ua deleted (D : Int) now).entityType =
      EntityType.system ∧
    (cleanupEntry actor ip ua deleted (D : Int) now).level = Level.info ∧
    (cleanupEntry actor ip ua deleted (D : Int) now).details =
      some (Details.cleanupInfo deleted (D : Int)) ∧
    (∀ e ∈ out.logs, ¬ e.createdAt < cutoff) ∧
    cleanup actor none now ip ua store = cleanup actor (some 30) now ip ua store

/-- C5: for every positive age threshold `D`, the admin-invoked retention
purge deletes exactly the entries with `createdAt` strictly before
`now - D` days, returns that count, appends one info-level
`delete`/`system` audit entry carrying the deleted count and threshold,
leaves no entry before the cutoff, and defaults to 30 days when the
threshold is unspecified. -/
theorem cleanup_purges_old_entries (actor : Actor) (D : Nat) (now : Int)
    (ip ua : Option String) (store : List LogEntry)
    (hadm : actor.role = Role.admin) (hD : 0 < D) :
    PurgeSpec actor D now ip ua store := by
  unfold PurgeSpec
  intro cutoff deleted out
  have hrole : ¬ actor.role ≠ Role.admin := by simp [hadm]
  have hDz : (D : Int) ≠ 0 := by exact_mod_cast hD.ne'
  have hout : out = CleanupOutcome.mk (CleanupResp.ok deleted)
      (store.filter (fun e => !decide (e.createdAt < cutoff)) ++
        [cleanupEntry actor ip ua deleted (D : Int) now]) := by
    show cleanup actor (some (D : Int)) now ip ua store = _
    unfold cleanup
    rw [if_neg hrole]
    simp only [daysToKeepOf, if_neg hDz]
  refine ⟨by rw [hout], by rw [hout], rfl, rfl, rfl, rfl, ?_, ?_⟩
  · intro e he
    rw [hout] at he
    rcases List.mem_append.1 he with hf | hn
    · have := (List.mem_filter.1 hf).2
      simpa using this
    · have h0 : (0 : Int) ≤ (D : Int) * dayMs :=
        mul_nonneg (Int.natCast_nonneg D) (by norm_num [dayMs])
      have he' : e = cleanupEntry actor ip ua deleted (D : Int) now := by
        simpa using hn
      rw [he']
      show ¬ now < cutoff
      show ¬ now < now - (D : Int) * dayMs
      intro hlt
      linarith
  · unfold cleanup
    rw [if_neg hrole, if_neg hrole]
    norm_num [daysToKeepOf]

/-- Witness for C5 at a concrete admin actor, threshold and store. -/
theorem cleanup_purges_old_entries_witness :
    PurgeSpec wActor 30 (86400000 * 40) none none wLogStore :=
  cleanup_purges_old_entries wActor 30 (86400000 * 40) none none wLogStore
    rfl (by decide)

/-- C9: a non-admin actor invoking the retention purge gets an
authorization failure and causes no side effect: the log store is returned
unchanged — nothing deleted, nothing appended. -/
theorem cleanup_requires_admin (actor : Actor) (daysParam : Option Int)
    (now : Int) (ip ua : Option String) (store : List LogEntry)
    (h : actor.role ≠ Role.admin) :
    cleanup actor daysParam now ip ua store =
      { response := CleanupResp.forbidden "Admin access required",
        logs := store } := by
  unfold cleanup
  rw [if_pos h]

/-- Witness for C9: a concrete non-admin actor. -/
theorem cleanup_requires_admin_witness :
    cleanup { id := 9, username := "bob", role := Role.user } (some 30) 0
      none none wLogStore =
      { response := CleanupResp.forbidden "Admin access required",
        logs := wLogStore } :=
  cleanup_requires_admin { id := 9, username := "bob", role := Role.user }
    (some 30) 0 none none wLogStore (by decide)

/-- C10: invoking the purge with `days = 0` (and an absent or unparsable
parameter, modelled as `none`) behaves exactly as if the 30-day default
had been requested — `parseInt(days) || 30` treats 0 and NaN as falsy, so
a caller cannot purge the entire log by passing `days=0`. -/
theorem cleanup_zero_days_uses_default (actor : Actor) (now : Int)
    (ip ua : Option String) (store : List LogEntry) :
    cleanup actor (some 0) now ip ua store =
      cleanup actor none now ip ua store ∧
    cleanup actor none now ip ua store =
      cleanup actor (some 30) now ip ua store ∧
    daysToKeepOf (some 0) = 30 := by
  refine ⟨?_, ?_, rfl⟩ <;> norm_num [cleanup, daysToKeepOf]
